import Mathlib

/-!
Shallow embedding of selfdrive/controls/lib/speed_limit_controller.py
(SpeedLimitResolver and SpeedLimitController), with theorems checking the
natural-language specification against the code.

Speeds, distances and times are modelled as rationals; Python dicts keyed
by the two sources become explicit pairs of per-source values; the numpy
array pipeline in the consolidation step becomes explicit list operations
(np.amax over a nonempty list, boolean mask filter, np.argmin keeping the
first minimum). Mutable object state becomes explicit state passing.
-/

namespace SpeedLimitController

/-- Module constant _PARAMS_UPDATE_PERIOD = 2. (seconds between parameter updates). -/
def PARAMS_UPDATE_PERIOD : ℚ := 2

/-- Module constant _WAIT_TIME_LIMIT_RISE = 2.0 (waiting time before raising the limit). -/
def WAIT_TIME_LIMIT_RISE : ℚ := 2

/-- Module constant _SPEED_OFFSET_TH = -1. (m/s offset threshold for the adapting state). -/
def SPEED_OFFSET_TH : ℚ := -1

/-- Module constant _LIMIT_ADAPT_ACC = -1.2 (ideal braking acceleration when adapting). -/
def LIMIT_ADAPT_ACC : ℚ := -6/5

/-- Module constant _MAX_MAP_DATA_AGE = 10.0 (seconds before map data is considered invalid). -/
def MAX_MAP_DATA_AGE : ℚ := 10

namespace SpeedLimitResolver

/-- Enum SpeedLimitResolver.Source (none = 0, car_state = 1, map_data = 2). -/
inductive Source
  | none
  | car_state
  | map_data
deriving DecidableEq, Repr

/-- Enum SpeedLimitResolver.Policy. -/
inductive Policy
  | car_state_only
  | map_data_only
  | car_state_priority
  | map_data_priority
  | combined
deriving DecidableEq, Repr

/-- Fields of the liveMapData message read by the resolver. -/
structure MapData where
  speedLimit : ℚ
  speedLimitValid : Bool
  speedLimitAhead : ℚ
  speedLimitAheadValid : Bool
  speedLimitAheadDistance : ℚ
  lastGpsTimestamp : ℚ
deriving DecidableEq, Repr

/-- A resolver candidate: limit value, distance, source tag. -/
abbrev Cand := ℚ × ℚ × Source

/-- Embedding of SpeedLimitResolver._get_from_map_data. The Boolean `present`
models the check that the liveMapData socket has a logMonoTime (a message has
arrived); `now` models time.time(); `prev` is the sticky tracker
_next_speed_limit_prev. Returns the map_data candidate (limit, distance)
together with the new value of the sticky tracker. The gps timestamp is in
milliseconds, hence the division by 1000 as in the source. -/
def get_from_map_data (present : Bool) (md : MapData) (now v_ego current_limit prev : ℚ) :
    ℚ × ℚ × ℚ :=
  if present = false then (0, 0, prev)
  else
    let speed_limit := if md.speedLimitValid then md.speedLimit else 0
    let next_speed_limit := if md.speedLimitAheadValid then md.speedLimitAhead else 0
    let gps_fix_age := now - md.lastGpsTimestamp / 1000
    if gps_fix_age > MAX_MAP_DATA_AGE then (0, 0, prev)
    else if next_speed_limit = 0 ∨ v_ego ≤ 0 ∨ next_speed_limit > current_limit then
      (speed_limit, 0, 0)
    else
      let distance_since_fix := v_ego * gps_fix_age
      let distance_to_speed_limit_ahead :=
        max 0 (md.speedLimitAheadDistance - distance_since_fix)
      if next_speed_limit = prev then (next_speed_limit, distance_to_speed_limit_ahead, prev)
      else
        let adapt_time := (next_speed_limit - v_ego) / LIMIT_ADAPT_ACC
        let adapt_distance := v_ego * adapt_time + (1/2) * LIMIT_ADAPT_ACC * adapt_time ^ 2
        if distance_to_speed_limit_ahead ≤ adapt_distance then
          (next_speed_limit, distance_to_speed_limit_ahead, next_speed_limit)
        else (speed_limit, 0, 0)

/-- Maximum of a list of rationals, as np.amax over a nonempty array
(the consolidation step only applies it to nonempty selections). -/
def listMax : List ℚ → ℚ
  | [] => 0
  | [x] => x
  | x :: y :: rest => max x (listMax (y :: rest))

/-- First candidate of minimal limit value, as np.argmin: the accumulator is
replaced only on a strictly smaller value, so the first minimum wins. -/
def argmin_first : Cand → List Cand → Cand
  | c, [] => c
  | c, d :: ds => if d.1 < c.1 then argmin_first d ds else argmin_first c ds

/-- First half of SpeedLimitResolver._consolidate: the candidate list built
from the sources selected by the policy, with the other source appended as
fallback when the maximum of the selected limits is 0 and the policy is one
of the two priority policies. -/
def select_candidates (car_limit car_dist map_limit map_dist : ℚ) (policy : Policy) :
    List Cand :=
  let sel : List Cand :=
    (if policy = Policy.car_state_only ∨ policy = Policy.car_state_priority ∨
        policy = Policy.combined then
      [(car_limit, car_dist, Source.car_state)] else [])
    ++ (if policy = Policy.map_data_only ∨ policy = Policy.map_data_priority ∨
        policy = Policy.combined then
      [(map_limit, map_dist, Source.map_data)] else [])
  if listMax (sel.map (fun c => c.1)) = 0 then
    if policy = Policy.car_state_priority then
      sel ++ [(map_limit, map_dist, Source.map_data)]
    else if policy = Policy.map_data_priority then
      sel ++ [(car_limit, car_dist, Source.car_state)]
    else sel
  else sel

/-- Embedding of SpeedLimitResolver._consolidate, operating on the per-source
candidates (car_state limit and distance, map_data limit and distance): the
zero-valued candidates are masked out and the first candidate of minimal
limit is returned, or (0, 0, none) when none remain. -/
def consolidate (car_limit car_dist map_limit map_dist : ℚ) (policy : Policy) : Cand :=
  match (select_candidates car_limit car_dist map_limit map_dist policy).filter
      (fun c => decide (0 < c.1)) with
  | [] => (0, 0, Source.none)
  | c :: cs => argmin_first c cs

/-- Minimum of a list of rationals (0 on the empty list), used by the
specification-side description of the consolidation step. -/
def spec_min_val : List ℚ → ℚ
  | [] => 0
  | [x] => x
  | x :: y :: rest => min x (spec_min_val (y :: rest))

/-- Specification-side description of the consolidation step, written from
the words of the specification: select the candidates of the sources of the
policy, append the other source as fallback exactly when the maximum over
the selected set is 0 and the policy is one of the two priority policies,
drop the zero-valued candidates, and return the first remaining candidate
carrying the minimum remaining value, or (0, 0, none) when none remain. -/
def spec_consolidate (car_limit car_dist map_limit map_dist : ℚ) (policy : Policy) : Cand :=
  let selected : List Cand :=
    (if policy = Policy.car_state_only ∨ policy = Policy.car_state_priority ∨
        policy = Policy.combined then [(car_limit, car_dist, Source.car_state)] else [])
    ++ (if policy = Policy.map_data_only ∨ policy = Policy.map_data_priority ∨
        policy = Policy.combined then [(map_limit, map_dist, Source.map_data)] else [])
  let fallback : List Cand :=
    if listMax (selected.map (fun c => c.1)) = 0 ∧
        (policy = Policy.car_state_priority ∨ policy = Policy.map_data_priority) then
      if policy = Policy.car_state_priority then [(map_limit, map_dist, Source.map_data)]
      else [(car_limit, car_dist, Source.car_state)]
    else []
  let remaining := (selected ++ fallback).filter (fun c => decide (0 < c.1))
  match remaining.find? (fun c => decide (c.1 = spec_min_val (remaining.map (fun x => x.1)))) with
  | Option.some c => c
  | Option.none => (0, 0, Source.none)

/-- Embedding of SpeedLimitResolver.resolve: the car_state candidate is the
reported cruise speed limit at distance 0; the map_data candidate comes from
get_from_map_data; the result pairs the consolidated candidate with the new
value of the sticky tracker. -/
def resolve (v_ego current_speed_limit car_speed_limit : ℚ)
    (present : Bool) (md : MapData) (now prev : ℚ) (policy : Policy) : Cand × ℚ :=
  let m := get_from_map_data present md now v_ego current_speed_limit prev
  (consolidate car_speed_limit 0 m.1 m.2.1 policy, m.2.2)

end SpeedLimitResolver

/-- Fields of the carState message read by the controller and resolver. -/
structure CarState where
  cruiseSpeedLimit : ℚ
  gasPressed : Bool
deriving DecidableEq, Repr

/-- Enum log.LongitudinalPlan.SpeedLimitControlState
(inactive = 0, tempInactive = 1, adapting = 2, active = 3). -/
inductive ControlState
  | inactive
  | tempInactive
  | adapting
  | active
deriving DecidableEq, Repr

/-- Numeric value of each state, giving the enum its ordering. -/
def ControlState.toNat : ControlState → Nat
  | ControlState.inactive => 0
  | ControlState.tempInactive => 1
  | ControlState.adapting => 2
  | ControlState.active => 3

/-- The persistent parameter store, restricted to the four Boolean keys the
controller reads: IsMetric, SpeedLimitControl, SpeedLimitDelayIncrease,
SpeedLimitPercOffset. -/
structure ParamsStore where
  isMetric : Bool
  speedLimitControl : Bool
  speedLimitDelayIncrease : Bool
  speedLimitPercOffset : Bool
deriving DecidableEq, Repr

/-- Mutable state of a SpeedLimitController instance, including the private
sticky tracker of its owned SpeedLimitResolver (next_speed_limit_prev). -/
structure Ctrl where
  last_params_update : ℚ
  is_metric : Bool
  is_enabled : Bool
  delay_increase : Bool
  offset_enabled : Bool
  op_enabled : Bool
  acc_limits : ℚ × ℚ
  v_ego : ℚ
  v_offset : ℚ
  v_cruise_setpoint : ℚ
  v_cruise_setpoint_prev : ℚ
  v_cruise_setpoint_changed : Bool
  speed_limit_set : ℚ
  speed_limit_set_prev : ℚ
  speed_limit_set_change : ℚ
  distance_set : ℚ
  speed_limit : ℚ
  speed_limit_prev : ℚ
  speed_limit_changed : Bool
  distance : ℚ
  source : SpeedLimitResolver.Source
  last_speed_limit_set_change_ts : ℚ
  state : ControlState
  state_prev : ControlState
  v_limit : ℚ
  next_speed_limit_prev : ℚ
deriving DecidableEq, Repr

/-- Embedding of SpeedLimitController.__init__: all numeric fields start at 0,
the state starts inactive, and the four Boolean configuration flags are read
from the parameter store. -/
def Ctrl.init (p : ParamsStore) : Ctrl where
  last_params_update := 0
  is_metric := p.isMetric
  is_enabled := p.speedLimitControl
  delay_increase := p.speedLimitDelayIncrease
  offset_enabled := p.speedLimitPercOffset
  op_enabled := false
  acc_limits := (0, 0)
  v_ego := 0
  v_offset := 0
  v_cruise_setpoint := 0
  v_cruise_setpoint_prev := 0
  v_cruise_setpoint_changed := false
  speed_limit_set := 0
  speed_limit_set_prev := 0
  speed_limit_set_change := 0
  distance_set := 0
  speed_limit := 0
  speed_limit_prev := 0
  speed_limit_changed := false
  distance := 0
  source := SpeedLimitResolver.Source.none
  last_speed_limit_set_change_ts := 0
  state := ControlState.inactive
  state_prev := ControlState.inactive
  v_limit := 0
  next_speed_limit_prev := 0

/-- Embedding of common.numpy_fast.interp specialised to the three-point
lookup table: flat below the first breakpoint, linear interpolation between
consecutive breakpoints, flat above the last. -/
def interp (x x0 x1 x2 y0 y1 y2 : ℚ) : ℚ :=
  if x ≤ x0 then y0
  else if x ≤ x1 then (x - x0) * (y1 - y0) / (x1 - x0) + y0
  else if x ≤ x2 then (x - x1) * (y2 - y1) / (x2 - x1) + y1
  else y2

/-- Property speed_limit_offset: the interpolated percent offset times the
limit when the offset flag is enabled, 0 otherwise. The breakpoints are
_LIMIT_PERC_OFFSET_BP = [13.9, 27.8, 36.1] and the values
_LIMIT_PERC_OFFSET_V = [0.1, 0.05, 0.038]. -/
def Ctrl.speed_limit_offset (c : Ctrl) : ℚ :=
  if c.offset_enabled then
    interp c.speed_limit (139/10) (278/10) (361/10) (1/10) (1/20) (19/500) * c.speed_limit
  else 0

/-- Property speed_limit_offseted: the displayed limit plus its percent offset. -/
def Ctrl.speed_limit_offseted (c : Ctrl) : ℚ :=
  c.speed_limit + c.speed_limit_offset

/-- Property is_active: state strictly above tempInactive in the enum order. -/
def Ctrl.is_active (c : Ctrl) : Bool :=
  decide (ControlState.tempInactive.toNat < c.state.toNat)

/-- Embedding of the state property setter: assigning tempInactive to a
controller not already in it snaps the displayed limit and distance to the
raw set values and resets the previous-limit tracker; any other assignment
just stores the state. -/
def Ctrl.set_state (c : Ctrl) (v : ControlState) : Ctrl :=
  if v ≠ c.state ∧ v = ControlState.tempInactive then
    { c with
        speed_limit := c.speed_limit_set
        distance := c.distance_set
        speed_limit_prev := c.speed_limit_set
        state := v }
  else { c with state := v }

/-- Embedding of SpeedLimitController._update_params, with `t` standing for
sec_since_boot(): strictly more than _PARAMS_UPDATE_PERIOD seconds after the
last refresh, the SpeedLimitControl, SpeedLimitDelayIncrease and
SpeedLimitPercOffset flags are re-read from the store. -/
def Ctrl.update_params (c : Ctrl) (p : ParamsStore) (t : ℚ) : Ctrl :=
  if t > c.last_params_update + PARAMS_UPDATE_PERIOD then
    { c with
        is_enabled := p.speedLimitControl
        delay_increase := p.speedLimitDelayIncrease
        offset_enabled := p.speedLimitPercOffset
        last_params_update := t }
  else c

/-- Embedding of SpeedLimitController._update_calculations, with `t` standing
for sec_since_boot(). -/
def Ctrl.update_calculations (c : Ctrl) (t : ℚ) : Ctrl :=
  let c := if c.speed_limit_set ≠ c.speed_limit_set_prev then
      { c with last_speed_limit_set_change_ts := t }
    else c
  let c := { c with distance := 0 }
  let c :=
    if c.speed_limit = c.speed_limit_set then { c with distance := c.distance_set }
    else if c.speed_limit = 0 ∨ c.speed_limit_set < c.speed_limit ∨
        c.delay_increase = false ∨
        t > c.last_speed_limit_set_change_ts + WAIT_TIME_LIMIT_RISE then
      { c with speed_limit := c.speed_limit_set, distance := c.distance_set }
    else c
  let c := { c with v_offset := c.speed_limit_offseted - c.v_ego }
  { c with
      speed_limit_changed := decide (c.speed_limit ≠ c.speed_limit_prev)
      v_cruise_setpoint_changed := decide (c.v_cruise_setpoint ≠ c.v_cruise_setpoint_prev)
      speed_limit_set_change := c.speed_limit_set - c.speed_limit_set_prev
      speed_limit_prev := c.speed_limit
      v_cruise_setpoint_prev := c.v_cruise_setpoint
      speed_limit_set_prev := c.speed_limit_set }

/-- Embedding of SpeedLimitController._state_transition. The commented-out
tempInactive branches of the source are absent, as in the code. -/
def Ctrl.state_transition (c : Ctrl) : Ctrl :=
  let c := { c with state_prev := c.state }
  if c.op_enabled = false ∨ c.is_enabled = false ∨ c.speed_limit = 0 then
    c.set_state ControlState.inactive
  else
    match c.state with
    | ControlState.inactive =>
        if c.v_offset < SPEED_OFFSET_TH then c.set_state ControlState.adapting
        else c.set_state ControlState.active
    | ControlState.tempInactive =>
        if c.speed_limit_changed then c.set_state ControlState.inactive else c
    | ControlState.adapting =>
        if c.v_offset ≥ SPEED_OFFSET_TH then c.set_state ControlState.active else c
    | ControlState.active =>
        if c.v_offset < SPEED_OFFSET_TH then c.set_state ControlState.adapting else c

/-- Embedding of SpeedLimitController._update_solution: v_limit defaults to
the cruise setpoint and acc_limits to the upstream pair; states at or below
tempInactive, or a pressed gas pedal, preserve them; adapting overrides
v_limit and tightens the lower acceleration bound; active overrides only
v_limit. -/
def Ctrl.update_solution (c : Ctrl) (gas_pressed : Bool) : Ctrl :=
  if c.state.toNat ≤ ControlState.tempInactive.toNat ∨ gas_pressed = true then
    { c with v_limit := c.v_cruise_setpoint }
  else if c.state = ControlState.adapting then
    { c with
        v_limit := c.speed_limit_offseted
        acc_limits := (min LIMIT_ADAPT_ACC c.acc_limits.1, c.acc_limits.2) }
  else if c.state = ControlState.active then
    { c with v_limit := c.speed_limit_offseted }
  else
    { c with v_limit := c.v_cruise_setpoint }

/-- One cycle of inputs to SpeedLimitController.update: the engagement flag,
ego speed, the carState and liveMapData snapshots (with presence flag for the
latter), wall-clock time (time.time()), monotonic time (sec_since_boot()),
the upstream cruise setpoint and acceleration bounds, and the current
contents of the parameter store. -/
structure CycleInput where
  enabled : Bool
  v_ego : ℚ
  car_state : CarState
  map_present : Bool
  map_data : SpeedLimitResolver.MapData
  wall_time : ℚ
  mono_time : ℚ
  v_cruise_setpoint : ℚ
  acc_limits : ℚ × ℚ
  params : ParamsStore
deriving Repr

/-- Embedding of SpeedLimitController.update: resolve, refresh parameters,
recompute smoothing, run the state transition and compute the solution. The
resolver is constructed with its default policy map_data_priority. -/
def Ctrl.update (c : Ctrl) (inp : CycleInput) : Ctrl :=
  let c := { c with op_enabled := inp.enabled, v_ego := inp.v_ego }
  let r := SpeedLimitResolver.resolve inp.v_ego c.speed_limit
      inp.car_state.cruiseSpeedLimit inp.map_present inp.map_data inp.wall_time
      c.next_speed_limit_prev SpeedLimitResolver.Policy.map_data_priority
  let c := { c with
      speed_limit_set := r.1.1
      distance_set := r.1.2.1
      source := r.1.2.2
      next_speed_limit_prev := r.2
      v_cruise_setpoint := inp.v_cruise_setpoint
      acc_limits := inp.acc_limits }
  let c := c.update_params inp.params inp.mono_time
  let c := c.update_calculations inp.mono_time
  let c := c.state_transition
  c.update_solution inp.car_state.gasPressed

/-- States of the controller reachable from construction by any sequence of
update cycles. -/
inductive Reachable : Ctrl → Prop
  | init (p : ParamsStore) : Reachable (Ctrl.init p)
  | step (c : Ctrl) (inp : CycleInput) : Reachable c → Reachable (c.update inp)

/-- C9: for every resolve call where a map-data message has arrived, if the
GPS fix age (current time minus the fix timestamp) exceeds 10.0 seconds, the
map_data candidate is (0, 0) regardless of the values of the speed-limit and
ahead-limit validity flags. -/
theorem C9_map_data_stale (md : SpeedLimitResolver.MapData)
    (now v_ego current_limit prev : ℚ)
    (h : now - md.lastGpsTimestamp / 1000 > 10) :
    (SpeedLimitResolver.get_from_map_data true md now v_ego current_limit prev).1 = 0 ∧
    (SpeedLimitResolver.get_from_map_data true md now v_ego current_limit prev).2.1 = 0 := by
  simp [SpeedLimitResolver.get_from_map_data, MAX_MAP_DATA_AGE, h]

/-- Witness for C9 at a concrete stale input. -/
theorem C9_map_data_stale_witness :
    (SpeedLimitResolver.get_from_map_data true ⟨30, true, 20, true, 100, 0⟩ 11 5 30 0).1 = 0 :=
  (C9_map_data_stale ⟨30, true, 20, true, 100, 0⟩ 11 5 30 0 (by norm_num)).1

/-- C3: in the smoothing step, when the raw set value differs from the
displayed limit, the raw value is applied immediately exactly when the
displayed limit was 0, or the raw value is lower, or delay-increase is
disabled, or strictly more than 2.0 seconds have elapsed since the
last-change timestamp (which is first refreshed to the current time if the
raw value changed this cycle); otherwise the old displayed limit is held. -/
theorem C3_smoothing (c : Ctrl) (t : ℚ) (h : c.speed_limit_set ≠ c.speed_limit) :
    (c.update_calculations t).speed_limit =
      if c.speed_limit = 0 ∨ c.speed_limit_set < c.speed_limit ∨ c.delay_increase = false ∨
          t > (if c.speed_limit_set ≠ c.speed_limit_set_prev then t
               else c.last_speed_limit_set_change_ts) + 2 then
        c.speed_limit_set
      else c.speed_limit := by
  have h' : ¬ c.speed_limit = c.speed_limit_set := fun hx => h hx.symm
  simp only [Ctrl.update_calculations, WAIT_TIME_LIMIT_RISE]
  split_ifs <;> simp_all

/-- Witness for C3: a decrease from 30 to 25 is applied the same cycle. -/
theorem C3_smoothing_witness :
    ({ Ctrl.init ⟨true, true, true, true⟩ with
        speed_limit := 30, speed_limit_set := 25 }.update_calculations 1).speed_limit = 25 := by
  have := C3_smoothing
    { Ctrl.init ⟨true, true, true, true⟩ with speed_limit := 30, speed_limit_set := 25 } 1
    (by norm_num [Ctrl.init])
  simpa [Ctrl.init] using this

/-- C4: the per-cycle state transition goes to inactive from every state when
the feature flag is disabled, the system is not engaged, or the displayed
limit is 0; otherwise from inactive it goes to adapting exactly when
v_offset < -1 and to active otherwise, from adapting it goes to active
exactly when v_offset is at least -1, and from active it goes to adapting
exactly when v_offset < -1. The single assignment of state_prev records that
exactly one transition is evaluated in the call. -/
theorem C4_state_transition (c : Ctrl) :
    ((c.op_enabled = false ∨ c.is_enabled = false ∨ c.speed_limit = 0) →
        c.state_transition.state = ControlState.inactive) ∧
    (c.op_enabled = true → c.is_enabled = true → c.speed_limit ≠ 0 →
        ((c.state = ControlState.inactive →
            c.state_transition.state =
              if c.v_offset < -1 then ControlState.adapting else ControlState.active) ∧
         (c.state = ControlState.adapting →
            c.state_transition.state =
              if c.v_offset ≥ -1 then ControlState.active else ControlState.adapting) ∧
         (c.state = ControlState.active →
            c.state_transition.state =
              if c.v_offset < -1 then ControlState.adapting else ControlState.active))) ∧
    c.state_transition.state_prev = c.state := by
  refine ⟨?_, ?_, ?_⟩
  · intro h
    simp only [Ctrl.state_transition, Ctrl.set_state]
    rw [if_pos h]
    split_ifs <;> rfl
  · intro h1 h2 h3
    refine ⟨?_, ?_, ?_⟩ <;> intro hs <;>
      simp only [Ctrl.state_transition, Ctrl.set_state, SPEED_OFFSET_TH, hs, h1, h2] <;>
      rw [if_neg (by simp [h1, h2, h3])] <;>
      split_ifs <;> simp_all
  · simp only [Ctrl.state_transition, Ctrl.set_state]
    cases hc : c.state <;> split_ifs <;> rfl

/-- Witness for C4: a disengaged controller transitions to inactive. -/
theorem C4_state_transition_witness :
    ({ Ctrl.init ⟨true, true, true, true⟩ with
        state := ControlState.active }.state_transition).state = ControlState.inactive :=
  (C4_state_transition
    { Ctrl.init ⟨true, true, true, true⟩ with state := ControlState.active }).1
    (Or.inl rfl)

/-- C8: the per-cycle output computation passes the upstream cruise setpoint
and acceleration bounds through unchanged when the state is inactive or
tempInactive or the gas pedal is pressed; in adapting it targets the
displayed limit with percent offset and tightens the lower acceleration
bound to the minimum of the upstream lower bound and -1.2; in active it
targets the displayed limit with percent offset and leaves both bounds
unchanged. -/
theorem C8_update_solution (c : Ctrl) (gas : Bool) :
    ((c.state = ControlState.inactive ∨ c.state = ControlState.tempInactive ∨ gas = true) →
        (c.update_solution gas).v_limit = c.v_cruise_setpoint ∧
        (c.update_solution gas).acc_limits = c.acc_limits) ∧
    (c.state = ControlState.adapting → gas = false →
        (c.update_solution gas).v_limit = c.speed_limit_offseted ∧
        (c.update_solution gas).acc_limits = (min c.acc_limits.1 (-6/5), c.acc_limits.2)) ∧
    (c.state = ControlState.active → gas = false →
        (c.update_solution gas).v_limit = c.speed_limit_offseted ∧
        (c.update_solution gas).acc_limits = c.acc_limits) := by
  refine ⟨?_, ?_, ?_⟩
  · intro h
    have : c.state.toNat ≤ ControlState.tempInactive.toNat ∨ gas = true := by
      rcases h with h | h | h
      · exact Or.inl (by simp [h, ControlState.toNat])
      · exact Or.inl (by simp [h, ControlState.toNat])
      · exact Or.inr h
    simp [Ctrl.update_solution, this]
  · intro hs hg
    simp [Ctrl.update_solution, hs, hg, ControlState.toNat, LIMIT_ADAPT_ACC, min_comm]
  · intro hs hg
    simp [Ctrl.update_solution, hs, hg, ControlState.toNat]

/-- Witness for C8: in the active state with gas released, the bounds pass
through and the target is the offseted displayed limit. -/
theorem C8_update_solution_witness :
    ({ Ctrl.init ⟨true, true, true, true⟩ with
        state := ControlState.active }.update_solution false).acc_limits = (0, 0) :=
  ((C8_update_solution
    { Ctrl.init ⟨true, true, true, true⟩ with state := ControlState.active } false).2.2
    rfl rfl).2

/-- C6 counterexample: at an update cycle 3 seconds after construction (more
than 2.0 seconds since the last refresh) with every key of the store flipped
to false, the units-is-metric flag keeps its construction-time value true, so
not all four flags are re-read; moreover at a cycle exactly 2.0 seconds after
the last refresh none of the flags is re-read, so a cycle where exactly 2.0
seconds have elapsed does not refresh either. -/
theorem C6_params_counterexample :
    ((Ctrl.init ⟨true, true, true, true⟩).update_params ⟨false, false, false, false⟩ 3).is_metric
      = true ∧
    (ParamsStore.mk false false false false).isMetric = false ∧
    ((Ctrl.init ⟨true, true, true, true⟩).update_params ⟨false, false, false, false⟩ 2).is_enabled
      = true := by
  refine ⟨?_, rfl, ?_⟩ <;>
    norm_num [Ctrl.update_params, Ctrl.init, PARAMS_UPDATE_PERIOD]

/-- C6 amended: all four persisted Boolean flags are read at construction; on
every update cycle where strictly more than 2.0 seconds have elapsed since
the last refresh, the three flags speed-limit-control-enabled,
delay-limit-increase and apply-percent-offset are re-read from the store
while units-is-metric keeps its previous value, and on any other cycle the
parameter step changes nothing. -/
theorem C6_params_amended (p0 p : ParamsStore) (c : Ctrl) (t : ℚ) :
    ((Ctrl.init p0).is_metric = p0.isMetric ∧
     (Ctrl.init p0).is_enabled = p0.speedLimitControl ∧
     (Ctrl.init p0).delay_increase = p0.speedLimitDelayIncrease ∧
     (Ctrl.init p0).offset_enabled = p0.speedLimitPercOffset) ∧
    (t > c.last_params_update + 2 →
        (c.update_params p t).is_enabled = p.speedLimitControl ∧
        (c.update_params p t).delay_increase = p.speedLimitDelayIncrease ∧
        (c.update_params p t).offset_enabled = p.speedLimitPercOffset ∧
        (c.update_params p t).is_metric = c.is_metric ∧
        (c.update_params p t).last_params_update = t) ∧
    (¬ t > c.last_params_update + 2 → c.update_params p t = c) := by
  refine ⟨⟨rfl, rfl, rfl, rfl⟩, ?_, ?_⟩ <;> intro h <;>
    simp [Ctrl.update_params, PARAMS_UPDATE_PERIOD, h]

/-- Witness for the amended C6 at a concrete refreshing cycle. -/
theorem C6_params_amended_witness :
    ((Ctrl.init ⟨true, true, true, true⟩).update_params ⟨false, false, false, false⟩ 3).is_enabled
      = false :=
  ((C6_params_amended ⟨true, true, true, true⟩ ⟨false, false, false, false⟩
    (Ctrl.init ⟨true, true, true, true⟩) 3).2.1 (by norm_num [Ctrl.init])).1

/-- C2 counterexample: a first resolve cycle with fresh map data (ego speed
30, current limit 30, ahead limit 20 at 100 m, within the adaptation
envelope) sets the sticky tracker to 20; the very next resolve cycle has no
map data at all, so its conditions for reporting the ahead limit do not
hold, yet the tracker remains 20 instead of being cleared to 0. -/
theorem C2_sticky_counterexample :
    (SpeedLimitResolver.resolve 30 30 0 true ⟨30, true, 20, true, 100, 0⟩ 0 0
        SpeedLimitResolver.Policy.map_data_priority).2 = 20 ∧
    (SpeedLimitResolver.resolve 30 30 0 false ⟨30, true, 20, true, 100, 0⟩ 1
        (SpeedLimitResolver.resolve 30 30 0 true ⟨30, true, 20, true, 100, 0⟩ 0 0
          SpeedLimitResolver.Policy.map_data_priority).2
        SpeedLimitResolver.Policy.map_data_priority).2 = 20 := by
  constructor <;>
    norm_num [SpeedLimitResolver.resolve, SpeedLimitResolver.get_from_map_data,
      MAX_MAP_DATA_AGE, LIMIT_ADAPT_ACC]

/-- C2 amended: the sticky ahead-limit tracker is cleared to 0 exactly by
resolve cycles that process a present, fresh map-data message and do not
confirm the ahead limit (no usable ahead limit, stopped car, ahead limit
above the current limit, or a new ahead value still outside the adaptation
envelope); cycles where the map-data message is absent or the GPS fix is
stale leave the tracker unchanged rather than clearing it. -/
theorem C2_sticky_amended (present : Bool) (md : SpeedLimitResolver.MapData)
    (now v_ego current prev : ℚ) :
    (present = false →
        (SpeedLimitResolver.get_from_map_data present md now v_ego current prev).2.2 = prev) ∧
    (present = true → now - md.lastGpsTimestamp / 1000 > 10 →
        (SpeedLimitResolver.get_from_map_data present md now v_ego current prev).2.2 = prev) ∧
    (present = true → ¬ now - md.lastGpsTimestamp / 1000 > 10 →
        ((if md.speedLimitAheadValid then md.speedLimitAhead else 0) = 0 ∨ v_ego ≤ 0 ∨
         (if md.speedLimitAheadValid then md.speedLimitAhead else 0) > current) →
        (SpeedLimitResolver.get_from_map_data present md now v_ego current prev).2.2 = 0) ∧
    (present = true → ¬ now - md.lastGpsTimestamp / 1000 > 10 →
        ¬ ((if md.speedLimitAheadValid then md.speedLimitAhead else 0) = 0 ∨ v_ego ≤ 0 ∨
           (if md.speedLimitAheadValid then md.speedLimitAhead else 0) > current) →
        (if md.speedLimitAheadValid then md.speedLimitAhead else 0) ≠ prev →
        ¬ max 0 (md.speedLimitAheadDistance - v_ego * (now - md.lastGpsTimestamp / 1000)) ≤
            v_ego * (((if md.speedLimitAheadValid then md.speedLimitAhead else 0) - v_ego)
              / LIMIT_ADAPT_ACC) +
            (1/2) * LIMIT_ADAPT_ACC *
              (((if md.speedLimitAheadValid then md.speedLimitAhead else 0) - v_ego)
                / LIMIT_ADAPT_ACC) ^ 2 →
        (SpeedLimitResolver.get_from_map_data present md now v_ego current prev).2.2 = 0) := by
  refine ⟨?_, ?_, ?_, ?_⟩
  · intro h
    simp [SpeedLimitResolver.get_from_map_data, h]
  · intro h1 h2
    simp [SpeedLimitResolver.get_from_map_data, h1, MAX_MAP_DATA_AGE, h2]
  · intro h1 h2 h3
    simp only [SpeedLimitResolver.get_from_map_data, h1, MAX_MAP_DATA_AGE]
    rw [if_neg (by simp), if_neg h2, if_pos h3]
  · intro h1 h2 h3 h4 h5
    simp only [SpeedLimitResolver.get_from_map_data, h1, MAX_MAP_DATA_AGE]
    rw [if_neg (by simp), if_neg h2, if_neg h3, if_neg h4, if_neg h5]

/-- Witness for the amended C2: a cycle with no map-data message keeps a
tracker value of 7. -/
theorem C2_sticky_amended_witness :
    (SpeedLimitResolver.get_from_map_data false ⟨30, true, 20, true, 100, 0⟩ 0 30 30 7).2.2 = 7 :=
  (C2_sticky_amended false ⟨30, true, 20, true, 100, 0⟩ 0 30 30 7).1 rfl

/-- C7 (Scenario B): with ego speed 30, a fresh GPS fix, map current limit
30 and ahead limit 20 at corrected distance 200 m, and assuming the ahead
limit does not exceed the current displayed limit and the sticky tracker is
not already 20, the adaptation envelope is adapt_time = (20 - 30) / (-1.2) =
25/3 s and adapt_distance = 30 * adapt_time + 0.5 * (-1.2) * adapt_time^2 =
625/3 m (about 208 m); since 200 is within it, the resolved result is
(20, 200, map_data) and the tracker is set to 20. -/
theorem C7_scenario_b (car_limit current prev : ℚ)
    (h1 : prev ≠ 20) (h2 : 20 ≤ current) :
    ((20 : ℚ) - 30) / LIMIT_ADAPT_ACC = 25/3 ∧
    (30 : ℚ) * (25/3) + (1/2) * LIMIT_ADAPT_ACC * (25/3) ^ 2 = 625/3 ∧
    ((200 : ℚ) ≤ 625/3) ∧
    SpeedLimitResolver.resolve 30 current car_limit true
        ⟨30, true, 20, true, 200, 0⟩ 0 prev SpeedLimitResolver.Policy.map_data_priority
      = ((20, 200, SpeedLimitResolver.Source.map_data), 20) := by
  have h1' : ¬ (20 : ℚ) = prev := fun hx => h1 hx.symm
  have h2' : ¬ (20 : ℚ) > current := not_lt.mpr h2
  refine ⟨by norm_num [LIMIT_ADAPT_ACC], by norm_num [LIMIT_ADAPT_ACC], by norm_num, ?_⟩
  simp only [SpeedLimitResolver.resolve, SpeedLimitResolver.get_from_map_data,
    MAX_MAP_DATA_AGE, LIMIT_ADAPT_ACC]
  rw [if_neg (by simp), if_neg (by norm_num),
    if_neg (by push_neg; refine ⟨by norm_num, by norm_num, ?_⟩; simpa using h2),
    if_neg (by simpa using h1'), if_pos (by norm_num)]
  norm_num [SpeedLimitResolver.consolidate, SpeedLimitResolver.select_candidates,
    SpeedLimitResolver.listMax, SpeedLimitResolver.argmin_first, List.filter]

/-- Witness for C7 with tracker 0 and current displayed limit 30. -/
theorem C7_scenario_b_witness :
    SpeedLimitResolver.resolve 30 30 0 true ⟨30, true, 20, true, 200, 0⟩ 0 0
        SpeedLimitResolver.Policy.map_data_priority
      = ((20, 200, SpeedLimitResolver.Source.map_data), 20) :=
  (C7_scenario_b 0 30 0 (by norm_num) (by norm_num)).2.2.2

/-- Helper: the parameter refresh step never changes the state. -/
theorem update_params_state (c : Ctrl) (p : ParamsStore) (t : ℚ) :
    (c.update_params p t).state = c.state := by
  simp only [Ctrl.update_params]
  split_ifs <;> rfl

/-- Helper: the smoothing step never changes the state. -/
theorem update_calculations_state (c : Ctrl) (t : ℚ) :
    (c.update_calculations t).state = c.state := by
  simp only [Ctrl.update_calculations]
  split_ifs <;> rfl

/-- Helper: the solution step never changes the state. -/
theorem update_solution_state (c : Ctrl) (g : Bool) :
    (c.update_solution g).state = c.state := by
  simp only [Ctrl.update_solution]
  split_ifs <;> rfl

/-- Helper: the state setter stores exactly the assigned state. -/
theorem set_state_state (c : Ctrl) (v : ControlState) : (c.set_state v).state = v := by
  simp only [Ctrl.set_state]
  split_ifs <;> rfl

/-- Helper: the state transition never produces tempInactive from a state
that is not already tempInactive, because no branch of the source assigns
it. -/
theorem state_transition_ne_tempInactive (c : Ctrl)
    (h : c.state ≠ ControlState.tempInactive) :
    c.state_transition.state ≠ ControlState.tempInactive := by
  cases hst : c.state <;>
    simp only [Ctrl.state_transition, hst] <;>
    split_ifs <;>
    simp_all [set_state_state, Ctrl.set_state]

/-- Helper: activity is equivalent to being in the adapting or active state,
for every value of the state enum. -/
theorem is_active_iff (c : Ctrl) :
    c.is_active = true ↔
      c.state = ControlState.adapting ∨ c.state = ControlState.active := by
  cases hst : c.state <;> simp [Ctrl.is_active, hst, ControlState.toNat]

/-- Helper: every state reachable from construction avoids tempInactive. -/
theorem reachable_state_ne_tempInactive (c : Ctrl) (h : Reachable c) :
    c.state ≠ ControlState.tempInactive := by
  induction h with
  | init p => simp [Ctrl.init]
  | step c inp hc ih =>
      show (Ctrl.update c inp).state ≠ _
      simp only [Ctrl.update]
      rw [update_solution_state]
      apply state_transition_ne_tempInactive
      rw [update_calculations_state, update_params_state]
      simpa using ih

/-- C5: starting from the initial inactive state, the per-cycle step never
reaches tempInactive, activity coincides with the state being adapting or
active on every reachable state, and the tempInactive entry side effect
never executes: the state transition leaves the displayed limit, the
distance and the previous-limit tracker untouched on every controller
state. -/
theorem C5_tempInactive_unreachable :
    (∀ c : Ctrl, Reachable c →
        c.state ≠ ControlState.tempInactive ∧
        (c.is_active = true ↔
          c.state = ControlState.adapting ∨ c.state = ControlState.active)) ∧
    (∀ c : Ctrl,
        c.state_transition.speed_limit = c.speed_limit ∧
        c.state_transition.distance = c.distance ∧
        c.state_transition.speed_limit_prev = c.speed_limit_prev) := by
  constructor
  · intro c hr
    exact ⟨reachable_state_ne_tempInactive c hr, is_active_iff c⟩
  · intro c
    cases hst : c.state <;>
      simp only [Ctrl.state_transition, hst] <;>
      split_ifs <;>
      simp_all [Ctrl.set_state]

/-- Witness for C5 at the initial state of a freshly constructed controller. -/
theorem C5_tempInactive_unreachable_witness :
    (Ctrl.init ⟨false, false, false, false⟩).state ≠ ControlState.tempInactive :=
  (C5_tempInactive_unreachable.1 (Ctrl.init ⟨false, false, false, false⟩)
    (Reachable.init ⟨false, false, false, false⟩)).1

/-- Helper: the first-minimum selection always returns one of its inputs. -/
theorem SpeedLimitResolver.argmin_first_mem (c : SpeedLimitResolver.Cand)
    (cs : List SpeedLimitResolver.Cand) :
    SpeedLimitResolver.argmin_first c cs ∈ c :: cs := by
  induction cs generalizing c with
  | nil => simp [SpeedLimitResolver.argmin_first]
  | cons d ds ih =>
      simp only [SpeedLimitResolver.argmin_first]
      split_ifs
      · have := ih d
        simp only [List.mem_cons] at this ⊢
        tauto
      · have := ih c
        simp only [List.mem_cons] at this ⊢
        tauto

/-- Helper: the candidate list built by the consolidation step only ever
contains the car_state candidate and the map_data candidate. -/
theorem SpeedLimitResolver.select_candidates_mem (cl cd ml mdist : ℚ)
    (p : SpeedLimitResolver.Policy) (x : SpeedLimitResolver.Cand)
    (hx : x ∈ SpeedLimitResolver.select_candidates cl cd ml mdist p) :
    x = (cl, cd, SpeedLimitResolver.Source.car_state) ∨
    x = (ml, mdist, SpeedLimitResolver.Source.map_data) := by
  simp only [SpeedLimitResolver.select_candidates] at hx
  split_ifs at hx <;> (simp_all; try tauto)

/-- Helper: when the two candidate distances are non-negative, the
consolidated result is either exactly (0, 0, none) or a strictly positive
limit with a non-negative distance and a real source tag. -/
theorem SpeedLimitResolver.consolidate_sound (cl cd ml mdist : ℚ)
    (p : SpeedLimitResolver.Policy) (hcd : 0 ≤ cd) (hmd : 0 ≤ mdist) :
    SpeedLimitResolver.consolidate cl cd ml mdist p
        = (0, 0, SpeedLimitResolver.Source.none) ∨
      (0 < (SpeedLimitResolver.consolidate cl cd ml mdist p).1 ∧
       0 ≤ (SpeedLimitResolver.consolidate cl cd ml mdist p).2.1 ∧
       (SpeedLimitResolver.consolidate cl cd ml mdist p).2.2
         ≠ SpeedLimitResolver.Source.none) := by
  simp only [SpeedLimitResolver.consolidate]
  rcases hf : (SpeedLimitResolver.select_candidates cl cd ml mdist p).filter
      (fun c => decide (0 < c.1)) with _ | ⟨c, cs⟩
  · rw [hf]
    left
    rfl
  · rw [hf]
    show SpeedLimitResolver.argmin_first c cs = (0, 0, SpeedLimitResolver.Source.none) ∨
      (0 < (SpeedLimitResolver.argmin_first c cs).1 ∧
       0 ≤ (SpeedLimitResolver.argmin_first c cs).2.1 ∧
       (SpeedLimitResolver.argmin_first c cs).2.2 ≠ SpeedLimitResolver.Source.none)
    right
    have hmem : SpeedLimitResolver.argmin_first c cs ∈
        (SpeedLimitResolver.select_candidates cl cd ml mdist p).filter
          (fun c => decide (0 < c.1)) := by
      rw [hf]
      exact SpeedLimitResolver.argmin_first_mem c cs
    have hpos : 0 < (SpeedLimitResolver.argmin_first c cs).1 := by
      have := List.of_mem_filter hmem
      simpa using this
    have hor := SpeedLimitResolver.select_candidates_mem cl cd ml mdist p _
      (List.mem_of_mem_filter hmem)
    refine ⟨hpos, ?_, ?_⟩
    · rcases hor with h | h <;> rw [h] <;> assumption
    · rcases hor with h | h <;> rw [h] <;> simp

/-- Helper: the distance of the map_data candidate is never negative: every
branch yields either 0 or a value clamped from below by 0. -/
theorem SpeedLimitResolver.get_from_map_data_dist_nonneg (present : Bool)
    (md : SpeedLimitResolver.MapData) (now v_ego current prev : ℚ) :
    0 ≤ (SpeedLimitResolver.get_from_map_data present md now v_ego current prev).2.1 := by
  simp only [SpeedLimitResolver.get_from_map_data]
  split_ifs <;> simp

/-- C10: every resolve call returns either exactly (0, 0, none), or a
strictly positive limit paired with a non-negative distance and a source tag
of car_state or map_data; a value of 0 is never selected as a winning
candidate and distances are never negative. -/
theorem C10_resolve_invariant (v_ego current car_limit : ℚ) (present : Bool)
    (md : SpeedLimitResolver.MapData) (now prev : ℚ) (p : SpeedLimitResolver.Policy) :
    (SpeedLimitResolver.resolve v_ego current car_limit present md now prev p).1
        = (0, 0, SpeedLimitResolver.Source.none) ∨
      (0 < (SpeedLimitResolver.resolve v_ego current car_limit present md now prev p).1.1 ∧
       0 ≤ (SpeedLimitResolver.resolve v_ego current car_limit present md now prev p).1.2.1 ∧
       (SpeedLimitResolver.resolve v_ego current car_limit present md now prev p).1.2.2
         ≠ SpeedLimitResolver.Source.none) := by
  have h := SpeedLimitResolver.consolidate_sound car_limit 0
    (SpeedLimitResolver.get_from_map_data present md now v_ego current prev).1
    (SpeedLimitResolver.get_from_map_data present md now v_ego current prev).2.1
    p le_rfl
    (SpeedLimitResolver.get_from_map_data_dist_nonneg present md now v_ego current prev)
  simpa [SpeedLimitResolver.resolve] using h

/-- C1: for every pair of per-source candidates and every policy, the
consolidation of the code agrees with the specification-side description:
select the candidates of the policy sources, append the other source exactly
when the maximum over the selected set is 0 and the policy is one of the two
priority policies, drop all zero-valued candidates, and return the minimum
remaining value with its paired distance and source tag, or (0, 0, none)
when none remain. -/
theorem C1_consolidate_refines_spec (cl cd ml mdist : ℚ)
    (p : SpeedLimitResolver.Policy) :
    SpeedLimitResolver.consolidate cl cd ml mdist p
      = SpeedLimitResolver.spec_consolidate cl cd ml mdist p := by
  cases p
  case car_state_only =>
    rcases lt_or_ge 0 cl with h | h
    · simp [SpeedLimitResolver.consolidate, SpeedLimitResolver.select_candidates,
        SpeedLimitResolver.spec_consolidate, SpeedLimitResolver.listMax,
        List.filter_cons, SpeedLimitResolver.spec_min_val, List.find?,
        SpeedLimitResolver.argmin_first, h]
    · have h' : ¬ 0 < cl := not_lt.mpr h
      simp [SpeedLimitResolver.consolidate, SpeedLimitResolver.select_candidates,
        SpeedLimitResolver.spec_consolidate, SpeedLimitResolver.listMax,
        List.filter_cons, SpeedLimitResolver.spec_min_val, List.find?,
        SpeedLimitResolver.argmin_first, h']
  case map_data_only =>
    rcases lt_or_ge 0 ml with h | h
    · simp [SpeedLimitResolver.consolidate, SpeedLimitResolver.select_candidates,
        SpeedLimitResolver.spec_consolidate, SpeedLimitResolver.listMax,
        List.filter_cons, SpeedLimitResolver.spec_min_val, List.find?,
        SpeedLimitResolver.argmin_first, h]
    · have h' : ¬ 0 < ml := not_lt.mpr h
      simp [SpeedLimitResolver.consolidate, SpeedLimitResolver.select_candidates,
        SpeedLimitResolver.spec_consolidate, SpeedLimitResolver.listMax,
        List.filter_cons, SpeedLimitResolver.spec_min_val, List.find?,
        SpeedLimitResolver.argmin_first, h']
  case car_state_priority =>
    rcases eq_or_ne cl 0 with h0 | h0
    · rcases lt_or_ge 0 ml with h | h
      · simp [SpeedLimitResolver.consolidate, SpeedLimitResolver.select_candidates,
          SpeedLimitResolver.spec_consolidate, SpeedLimitResolver.listMax,
          List.filter_cons, SpeedLimitResolver.spec_min_val, List.find?,
          SpeedLimitResolver.argmin_first, h0, h]
      · have h' : ¬ 0 < ml := not_lt.mpr h
        simp [SpeedLimitResolver.consolidate, SpeedLimitResolver.select_candidates,
          SpeedLimitResolver.spec_consolidate, SpeedLimitResolver.listMax,
          List.filter_cons, SpeedLimitResolver.spec_min_val, List.find?,
          SpeedLimitResolver.argmin_first, h0, h']
    · rcases lt_or_ge 0 cl with h | h
      · simp [SpeedLimitResolver.consolidate, SpeedLimitResolver.select_candidates,
          SpeedLimitResolver.spec_consolidate, SpeedLimitResolver.listMax,
          List.filter_cons, SpeedLimitResolver.spec_min_val, List.find?,
          SpeedLimitResolver.argmin_first, h0, h]
      · have h' : ¬ 0 < cl := not_lt.mpr h
        simp [SpeedLimitResolver.consolidate, SpeedLimitResolver.select_candidates,
          SpeedLimitResolver.spec_consolidate, SpeedLimitResolver.listMax,
          List.filter_cons, SpeedLimitResolver.spec_min_val, List.find?,
          SpeedLimitResolver.argmin_first, h0, h']
  case map_data_priority =>
    rcases eq_or_ne ml 0 with h0 | h0
    · rcases lt_or_ge 0 cl with h | h
      · simp [SpeedLimitResolver.consolidate, SpeedLimitResolver.select_candidates,
          SpeedLimitResolver.spec_consolidate, SpeedLimitResolver.listMax,
          List.filter_cons, SpeedLimitResolver.spec_min_val, List.find?,
          SpeedLimitResolver.argmin_first, h0, h]
      · have h' : ¬ 0 < cl := not_lt.mpr h
        simp [SpeedLimitResolver.consolidate, SpeedLimitResolver.select_candidates,
          SpeedLimitResolver.spec_consolidate, SpeedLimitResolver.listMax,
          List.filter_cons, SpeedLimitResolver.spec_min_val, List.find?,
          SpeedLimitResolver.argmin_first, h0, h']
    · rcases lt_or_ge 0 ml with h | h
      · simp [SpeedLimitResolver.consolidate, SpeedLimitResolver.select_candidates,
          SpeedLimitResolver.spec_consolidate, SpeedLimitResolver.listMax,
          List.filter_cons, SpeedLimitResolver.spec_min_val, List.find?,
          SpeedLimitResolver.argmin_first, h0, h]
      · have h' : ¬ 0 < ml := not_lt.mpr h
        simp [SpeedLimitResolver.consolidate, SpeedLimitResolver.select_candidates,
          SpeedLimitResolver.spec_consolidate, SpeedLimitResolver.listMax,
          List.filter_cons, SpeedLimitResolver.spec_min_val, List.find?,
          SpeedLimitResolver.argmin_first, h0, h']
  case combined =>
    rcases lt_or_ge 0 cl with hc | hc <;> rcases lt_or_ge 0 ml with hm | hm
    · rcases le_or_lt cl ml with hle | hlt
      · have h1 : ¬ ml < cl := not_lt.mpr hle
        have h2 : min cl ml = cl := min_eq_left hle
        simp [SpeedLimitResolver.consolidate, SpeedLimitResolver.select_candidates,
          SpeedLimitResolver.spec_consolidate, SpeedLimitResolver.listMax,
          List.filter_cons, SpeedLimitResolver.spec_min_val, List.find?,
          SpeedLimitResolver.argmin_first, hc, hm, h1, h2]
      · have h2 : min cl ml = ml := min_eq_right (le_of_lt hlt)
        have h3 : ¬ cl = ml := ne_of_gt hlt
        simp [SpeedLimitResolver.consolidate, SpeedLimitResolver.select_candidates,
          SpeedLimitResolver.spec_consolidate, SpeedLimitResolver.listMax,
          List.filter_cons, SpeedLimitResolver.spec_min_val, List.find?,
          SpeedLimitResolver.argmin_first, hc, hm, hlt, h2, h3]
    · have hm' : ¬ 0 < ml := not_lt.mpr hm
      simp [SpeedLimitResolver.consolidate, SpeedLimitResolver.select_candidates,
        SpeedLimitResolver.spec_consolidate, SpeedLimitResolver.listMax,
        List.filter_cons, SpeedLimitResolver.spec_min_val, List.find?,
        SpeedLimitResolver.argmin_first, hc, hm']
    · have hc' : ¬ 0 < cl := not_lt.mpr hc
      simp [SpeedLimitResolver.consolidate, SpeedLimitResolver.select_candidates,
        SpeedLimitResolver.spec_consolidate, SpeedLimitResolver.listMax,
        List.filter_cons, SpeedLimitResolver.spec_min_val, List.find?,
        SpeedLimitResolver.argmin_first, hc', hm]
    · have hc' : ¬ 0 < cl := not_lt.mpr hc
      have hm' : ¬ 0 < ml := not_lt.mpr hm
      simp [SpeedLimitResolver.consolidate, SpeedLimitResolver.select_candidates,
        SpeedLimitResolver.spec_consolidate, SpeedLimitResolver.listMax,
        List.filter_cons, SpeedLimitResolver.spec_min_val, List.find?,
        SpeedLimitResolver.argmin_first, hc', hm']

end SpeedLimitController
